import Mathlib

/-!
Verification of the OAuth PKCE authentication core of the Google-API-Demo
repository.  The definitions below are a shallow embedding of the relevant
JavaScript/TypeScript source:

* `backend/server.js` — the web backend (session store, token exchange,
  picker-media normalization);
* the mobile backend server (session store with a 10-minute expiry check,
  token exchange, user-token map, refresh handler, dual auth resolution);
* `app/(tabs)/index.tsx` — the service layer (`GoogleApiService`:
  `generateCodeChallenge`, `fetchSelectedPhotos`, `openPhotoPicker`);
* `src/AppSecure.js` — the web client's `openPhotoPicker`.

JavaScript `Map` objects are modelled as association lists with the exact
`get`/`set`/`delete` semantics; timestamps are `Nat` milliseconds; absent
JSON fields are `Option`; the identity provider's HTTP responses are passed
in as explicit parameters (they are an external collaborator); a boolean in
each handler's result records whether the provider's token endpoint was
actually reached (i.e. whether a network call happened).
-/

/-! ## Association-list model of a JavaScript `Map` with string keys -/

/-- `Map.get`: first (and, for maps built by `set`, only) binding of `k`. -/
def mapLookup {α : Type} (k : String) : List (String × α) → Option α
  | [] => none
  | (k', v) :: rest => if k' = k then some v else mapLookup k rest

/-- `Map.set`: replace the binding of `k` in place, else append it. -/
def mapSet {α : Type} (k : String) (v : α) : List (String × α) → List (String × α)
  | [] => [(k, v)]
  | (k', v') :: rest => if k' = k then (k, v) :: rest else (k', v') :: mapSet k v rest

/-- `Map.delete`: remove the binding of `k` (maps built by `set` have one). -/
def mapErase {α : Type} (k : String) : List (String × α) → List (String × α)
  | [] => []
  | (k', v) :: rest => if k' = k then mapErase k rest else (k', v) :: mapErase k rest

theorem mapLookup_erase_self {α : Type} (k : String) (l : List (String × α)) :
    mapLookup k (mapErase k l) = none := by
  induction l with
  | nil => rfl
  | cons p rest ih =>
    obtain ⟨a, b⟩ := p
    by_cases h : a = k
    · simpa [mapErase, h] using ih
    · simpa [mapErase, mapLookup, h] using ih

theorem mapLookup_erase_ne {α : Type} {k k' : String} (h : k' ≠ k) (l : List (String × α)) :
    mapLookup k' (mapErase k l) = mapLookup k' l := by
  induction l with
  | nil => rfl
  | cons p rest ih =>
    obtain ⟨a, b⟩ := p
    by_cases hp : a = k
    · have ha : ¬(a = k') := fun e => h (hp ▸ e.symm ▸ rfl)
      simp only [mapErase, mapLookup, if_pos hp, if_neg ha, ih]
    · simp only [mapErase, mapLookup, if_neg hp, ih]

theorem mapLookup_set_self {α : Type} (k : String) (v : α) (l : List (String × α)) :
    mapLookup k (mapSet k v l) = some v := by
  induction l with
  | nil => simp [mapSet, mapLookup]
  | cons p rest ih =>
    obtain ⟨a, b⟩ := p
    by_cases h : a = k
    · simp [mapSet, mapLookup, h]
    · simp [mapSet, mapLookup, h, ih]

theorem mapLookup_set_ne {α : Type} {k k' : String} (h : k' ≠ k) (v : α)
    (l : List (String × α)) : mapLookup k' (mapSet k v l) = mapLookup k' l := by
  have hk : ¬(k = k') := fun e => h e.symm
  induction l with
  | nil => simp [mapSet, mapLookup, hk]
  | cons p rest ih =>
    obtain ⟨a, b⟩ := p
    by_cases hp : a = k
    · simp only [mapSet, mapLookup, if_pos hp, if_neg hk]
      rw [hp, if_neg hk]
    · simp only [mapSet, mapLookup, if_neg hp, ih]

/-! ## Data model of the session store and token exchange

`activeSessions` entries (`{codeVerifier, timestamp}`), the provider's token
endpoint response, the mobile backend's `userTokens` records, and the JSON
responses the exchange handlers can produce.
-/

/-- An `activeSessions` entry: `{ codeVerifier, timestamp: Date.now() }`. -/
structure Session where
  codeVerifier : String
  timestamp : Nat
deriving DecidableEq, Repr

/-- A successful provider token-endpoint response body. -/
structure TokenData where
  access_token : String
  refresh_token : Option String
  expires_in : Nat
  scope : Option String
deriving DecidableEq, Repr

/-- The JSON body of a provider error response (`error.response.data`). -/
structure ErrData where
  error : Option String
  error_description : Option String
deriving DecidableEq, Repr

/-- An axios-style error: optional response body plus the transport
`error.message` (e.g. "Request failed with status code 400"). -/
structure ProviderErr where
  data : Option ErrData
  message : String
deriving DecidableEq, Repr

/-- Outcome of the provider's token endpoint for one POST. -/
inductive ProviderResult where
  | success (tok : TokenData)
  | failure (err : ProviderErr)
deriving DecidableEq, Repr

/-- A `userTokens` record of the mobile backend. -/
structure TokenRecord where
  access_token : String
  refresh_token : Option String
  expires_at : Nat
  user_id : String
deriving DecidableEq, Repr

/-- The distinct JSON responses of the `/api/oauth/token` handlers. -/
inductive ExchangeResponse where
  /-- 400 `{error: "Missing code or state parameter"}` -/
  | missingParams
  /-- 400 `{error: "Invalid or expired session"}` -/
  | invalidSession
  /-- 400 `{error: "Session expired"}` (mobile backend only) -/
  | sessionExpired
  /-- 200 with the token payload (mobile backend also returns `user_id`) -/
  | tokens (tok : TokenData) (user_id : Option String)
  /-- 500 `{error: "Token exchange failed", details}` -/
  | exchangeFailed (details : String)
deriving DecidableEq, Repr

abbrev SessionMap := List (String × Session)
abbrev TokenMap := List (String × TokenRecord)

/-- The details string of the catch branch:
`error.response?.data?.error_description || error.message`. -/
def catchDetails (err : ProviderErr) : String :=
  (err.data.bind ErrData.error_description).getD err.message

/-- `POST /api/oauth/token` of `backend/server.js` (web backend).

The handler never consults the clock: it looks the `state` up in
`activeSessions` (400 when absent), POSTs to the provider's token endpoint,
deletes the session only after a successful exchange, and on a provider
error answers 500 from the catch branch without touching the session map.
The returned boolean records whether the provider POST was reached. -/
def exchangeTokenWeb (provider : ProviderResult) (code state : Option String)
    (sessions : SessionMap) : ExchangeResponse × SessionMap × Bool :=
  match code, state with
  | some _, some s =>
    match mapLookup s sessions with
    | none => (.invalidSession, sessions, false)
    | some _ =>
      match provider with
      | .success tok => (.tokens tok none, mapErase s sessions, true)
      | .failure err => (.exchangeFailed (catchDetails err), sessions, true)
  | _, _ => (.missingParams, sessions, false)

/-- Result of `POST /api/oauth/token` of the mobile backend: response,
updated `activeSessions`, updated `userTokens`, network-reached flag. -/
structure MobileExchangeResult where
  response : ExchangeResponse
  sessions : SessionMap
  userTokens : TokenMap
  network : Bool
deriving DecidableEq, Repr

/-- `POST /api/oauth/token` of the mobile backend.

Identical to the web handler except that (a) a session older than
600000 ms (`Date.now() - session.timestamp > 600000`) is deleted and
rejected with 400 "Session expired" before the provider is contacted, and
(b) on success the minted token record is stored in `userTokens` under
`userId || crypto.randomUUID()` (`freshId` stands for the generated UUID).
`now` is the value of `Date.now()` during the request. -/
def exchangeTokenMobile (provider : ProviderResult) (now : Nat) (freshId : String)
    (code state userId : Option String) (sessions : SessionMap)
    (userTokens : TokenMap) : MobileExchangeResult :=
  match code, state with
  | some _, some s =>
    match mapLookup s sessions with
    | none => ⟨.invalidSession, sessions, userTokens, false⟩
    | some session =>
      if now - session.timestamp > 600000 then
        ⟨.sessionExpired, mapErase s sessions, userTokens, false⟩
      else
        match provider with
        | .success tok =>
          let uid := userId.getD freshId
          let rec0 : TokenRecord :=
            { access_token := tok.access_token
              refresh_token := tok.refresh_token
              expires_at := now + tok.expires_in * 1000
              user_id := uid }
          ⟨.tokens tok (some uid), mapErase s sessions, mapSet uid rec0 userTokens, true⟩
        | .failure err => ⟨.exchangeFailed (catchDetails err), sessions, userTokens, true⟩
  | _, _ => ⟨.missingParams, sessions, userTokens, false⟩

/-! ## Substring check (used to state what the surfaced details contain) -/

/-- `startsWithChars pat s`: `pat` is an initial segment of `s`. -/
def startsWithChars : List Char → List Char → Bool
  | [], _ => true
  | _ :: _, [] => false
  | a :: as, b :: bs => a = b && startsWithChars as bs

/-- `containsSubstr s sub`: `sub` occurs contiguously inside `s`. -/
def containsSubstr (s sub : List Char) : Bool :=
  (List.range (s.length + 1)).any (fun i => startsWithChars sub (s.drop i))

/-! ## Concrete fixtures -/

/-- A stored session: verifier `"v"`, created at time 0. -/
def sess0 : Session := ⟨"v", 0⟩

/-- A session map holding the single session `"S1"`. -/
def st1 : SessionMap := [("S1", sess0)]

/-- A successful provider token payload. -/
def tok0 : TokenData := ⟨"AT", some "RT", 3600, some "scope"⟩

/-- The provider rejecting a code with body `{error: "invalid_grant"}` and no
`error_description`; axios then reports `message` = "Request failed with
status code 400". -/
def errInvalidGrant : ProviderErr :=
  ⟨some ⟨some "invalid_grant", none⟩, "Request failed with status code 400"⟩

/-! ## C1 — single-use sessions -/

/-- C1 counterexample: the claim "a second exchange attempt with the same
state after any earlier exchange attempt, successful or not, is rejected"
is false on `backend/server.js`.  With session `"S1"` stored, a first
exchange attempt that reaches the provider and fails (500) leaves the
session in `activeSessions` (the handler deletes it only after a successful
exchange), and a second attempt with the same state is then accepted and
succeeds instead of being rejected with SessionError. -/
theorem c1_single_use_counterexample :
    (exchangeTokenWeb (.failure errInvalidGrant) (some "c") (some "S1") st1).1 =
      .exchangeFailed "Request failed with status code 400"
    ∧ (exchangeTokenWeb (.failure errInvalidGrant) (some "c") (some "S1") st1).2.2 = true
    ∧ (exchangeTokenWeb (.failure errInvalidGrant) (some "c") (some "S1") st1).2.1 = st1
    ∧ (exchangeTokenWeb (.success tok0) (some "c") (some "S1")
        (exchangeTokenWeb (.failure errInvalidGrant) (some "c") (some "S1") st1).2.1).1 =
        .tokens tok0 none :=
  ⟨rfl, rfl, rfl, rfl⟩

/-- C1 amended: single-use holds only for successful exchanges.  After a
successful exchange the session is deleted, so any subsequent lookup of the
same state finds nothing and a subsequent exchange with that state is
rejected with 400 "Invalid or expired session"; but after a failed exchange
attempt the session map is unchanged (the handler deletes only on success),
so the same state is processed again. -/
theorem c1_single_use_on_success (provider : ProviderResult) (c s : String)
    (sessions : SessionMap) :
    (∀ tok uid, (exchangeTokenWeb provider (some c) (some s) sessions).1 = .tokens tok uid →
        mapLookup s (exchangeTokenWeb provider (some c) (some s) sessions).2.1 = none)
    ∧ (mapLookup s sessions = none →
        exchangeTokenWeb provider (some c) (some s) sessions = (.invalidSession, sessions, false))
    ∧ (∀ err sess, mapLookup s sessions = some sess → provider = .failure err →
        (exchangeTokenWeb provider (some c) (some s) sessions).2.1 = sessions) := by
  refine ⟨?_, ?_, ?_⟩
  · intro tok uid h
    cases hl : mapLookup s sessions with
    | none => simp [exchangeTokenWeb, hl] at h
    | some sess =>
      cases provider with
      | success t => simp [exchangeTokenWeb, hl, mapLookup_erase_self]
      | failure e => simp [exchangeTokenWeb, hl] at h
  · intro hl
    simp [exchangeTokenWeb, hl]
  · intro err sess hl hp
    subst hp
    simp [exchangeTokenWeb, hl]

/-- Witness for `c1_single_use_on_success` at concrete inputs. -/
theorem c1_single_use_on_success_witness :
    mapLookup "S1" (exchangeTokenWeb (.success tok0) (some "c") (some "S1") st1).2.1 = none
    ∧ exchangeTokenWeb (.success tok0) (some "c") (some "S1") [] = (.invalidSession, [], false)
    ∧ (exchangeTokenWeb (.failure errInvalidGrant) (some "c") (some "S1") st1).2.1 = st1 :=
  ⟨(c1_single_use_on_success (.success tok0) "c" "S1" st1).1 tok0 none rfl,
   (c1_single_use_on_success (.success tok0) "c" "S1" []).2.1 rfl,
   (c1_single_use_on_success (.failure errInvalidGrant) "c" "S1" st1).2.2
     errInvalidGrant sess0 rfl rfl⟩

/-! ## C2 — session expiry -/

/-- C2 counterexample: `backend/server.js` performs no expiry check at all —
its `/api/oauth/token` handler never reads the clock (`Date.now()` does not
occur in it), so its behaviour is the same at every invocation time.  A
session created at timestamp 0 is accepted and exchanged (the provider is
reached and tokens are returned) even when the handler runs strictly later
than 0 + 600000 ms, instead of being rejected as expired as the claim
requires. -/
theorem c2_expiry_counterexample :
    exchangeTokenWeb (.success tok0) (some "c") (some "S1") st1 =
      (.tokens tok0 none, [], true) := rfl

/-- C2 amended: only the mobile backend enforces the 10-minute TTL.  There,
a consume at `now` with `now - timestamp > 600000` (equivalently
`now > timestamp + 600000`) deletes the session and answers
400 "Session expired" without reaching the provider, and the deleted
session can no longer be looked up. -/
theorem c2_expiry_mobile (provider : ProviderResult) (now : Nat) (freshId c s : String)
    (userId : Option String) (sessions : SessionMap) (utokens : TokenMap) (sess : Session)
    (hl : mapLookup s sessions = some sess) (he : sess.timestamp + 600000 < now) :
    exchangeTokenMobile provider now freshId (some c) (some s) userId sessions utokens =
      ⟨.sessionExpired, mapErase s sessions, utokens, false⟩
    ∧ mapLookup s (mapErase s sessions) = none := by
  have hexp : now - sess.timestamp > 600000 := by omega
  exact ⟨by simp [exchangeTokenMobile, hl, hexp], mapLookup_erase_self s sessions⟩

/-- Witness for `c2_expiry_mobile`: session created at 0, consumed at
600001 ms. -/
theorem c2_expiry_mobile_witness :
    exchangeTokenMobile (.success tok0) 600001 "f" (some "c") (some "S1") none st1 [] =
      ⟨.sessionExpired, mapErase "S1" st1, [], false⟩
    ∧ mapLookup "S1" (mapErase "S1" st1) = none :=
  c2_expiry_mobile (.success tok0) 600001 "f" "c" "S1" none st1 [] sess0 rfl (by decide)

/-! ## C3 — bad state never reaches the network -/

/-- C3: whenever the `state` of a code-exchange request does not resolve to
a live session — unknown or already deleted (web and mobile), or expired
(mobile) — the handler answers the SessionError response (400 "Invalid or
expired session" / 400 "Session expired") and the provider's token endpoint
is never contacted (the network flag of the result is `false`). -/
theorem c3_session_error_no_network (provider : ProviderResult) (now : Nat)
    (freshId c s : String) (userId : Option String) (sessions : SessionMap)
    (utokens : TokenMap) :
    (mapLookup s sessions = none →
        exchangeTokenWeb provider (some c) (some s) sessions = (.invalidSession, sessions, false)
        ∧ exchangeTokenMobile provider now freshId (some c) (some s) userId sessions utokens =
            ⟨.invalidSession, sessions, utokens, false⟩)
    ∧ (∀ sess, mapLookup s sessions = some sess → sess.timestamp + 600000 < now →
        exchangeTokenMobile provider now freshId (some c) (some s) userId sessions utokens =
          ⟨.sessionExpired, mapErase s sessions, utokens, false⟩) := by
  refine ⟨fun hl => ⟨by simp [exchangeTokenWeb, hl], by simp [exchangeTokenMobile, hl]⟩,
    fun sess hl he => ?_⟩
  have hexp : now - sess.timestamp > 600000 := by omega
  simp [exchangeTokenMobile, hl, hexp]

/-- Witness for `c3_session_error_no_network`: unknown state `"S2"` and
expired session `"S1"`. -/
theorem c3_session_error_no_network_witness :
    (exchangeTokenWeb (.success tok0) (some "c") (some "S2") st1 = (.invalidSession, st1, false)
      ∧ exchangeTokenMobile (.success tok0) 600001 "f" (some "c") (some "S2") none st1 [] =
          ⟨.invalidSession, st1, [], false⟩)
    ∧ exchangeTokenMobile (.success tok0) 600001 "f" (some "c") (some "S1") none st1 [] =
        ⟨.sessionExpired, mapErase "S1" st1, [], false⟩ :=
  ⟨(c3_session_error_no_network (.success tok0) 600001 "f" "c" "S2" none st1 []).1 rfl,
   (c3_session_error_no_network (.success tok0) 600001 "f" "c" "S1" none st1 []).2
     sess0 rfl (by decide)⟩

/-! ## C6 — what the surfaced exchange-failure details contain -/

/-- C6 counterexample: when the provider rejects the exchange with body
`{error: "invalid_grant"}` (and no `error_description`), the catch branch
surfaces `details = error.response?.data?.error_description || error.message`
= the axios transport message "Request failed with status code 400", which
does not contain the substring "invalid_grant".  The provider's `error`
field is never surfaced. -/
theorem c6_invalid_grant_counterexample :
    (exchangeTokenWeb (.failure errInvalidGrant) (some "c") (some "S1") st1).1 =
      .exchangeFailed "Request failed with status code 400"
    ∧ containsSubstr "Request failed with status code 400".toList "invalid_grant".toList
        = false :=
  ⟨rfl, by decide⟩

/-- C6 amended: on a provider rejection of a live session's exchange, both
backends answer 500 "Token exchange failed" with
`details = error_description` when the provider supplied one, and the
transport `error.message` otherwise; the provider's `error` code itself is
not included in the surfaced details. -/
theorem c6_exchange_failure_details (err : ProviderErr) (now : Nat)
    (freshId c s : String) (userId : Option String) (sessions : SessionMap)
    (utokens : TokenMap) (sess : Session) (hl : mapLookup s sessions = some sess)
    (hfresh : now - sess.timestamp ≤ 600000) :
    (exchangeTokenWeb (.failure err) (some c) (some s) sessions).1 =
      .exchangeFailed (catchDetails err)
    ∧ (exchangeTokenMobile (.failure err) now freshId (some c) (some s) userId
        sessions utokens).response = .exchangeFailed (catchDetails err)
    ∧ (∀ dat d, err.data = some dat → dat.error_description = some d →
        catchDetails err = d) := by
  have hexp : ¬(now - sess.timestamp > 600000) := by omega
  refine ⟨by simp [exchangeTokenWeb, hl], by simp [exchangeTokenMobile, hl, hexp], ?_⟩
  intro dat d h1 h2
  simp [catchDetails, h1, h2]

/-- Witness for `c6_exchange_failure_details`, including the
`error_description`-present case. -/
theorem c6_exchange_failure_details_witness :
    (exchangeTokenWeb (.failure errInvalidGrant) (some "c") (some "S1") st1).1 =
      .exchangeFailed (catchDetails errInvalidGrant)
    ∧ (exchangeTokenMobile (.failure ⟨some ⟨some "invalid_grant", some "Bad Request"⟩, "m"⟩)
        0 "f" (some "c") (some "S1") none st1 []).response =
        .exchangeFailed (catchDetails ⟨some ⟨some "invalid_grant", some "Bad Request"⟩, "m"⟩)
    ∧ catchDetails ⟨some ⟨some "invalid_grant", some "Bad Request"⟩, "m"⟩ = "Bad Request" :=
  ⟨(c6_exchange_failure_details errInvalidGrant 0 "f" "c" "S1" none st1 [] sess0 rfl
      (by norm_num)).1,
   (c6_exchange_failure_details ⟨some ⟨some "invalid_grant", some "Bad Request"⟩, "m"⟩
      0 "f" "c" "S1" none st1 [] sess0 rfl (by norm_num)).2.1,
   (c6_exchange_failure_details ⟨some ⟨some "invalid_grant", some "Bad Request"⟩, "m"⟩
      0 "f" "c" "S1" none st1 [] sess0 rfl (by norm_num)).2.2
     ⟨some "invalid_grant", some "Bad Request"⟩ "Bad Request" rfl rfl⟩

/-! ## C5 — PKCE challenge derivation

`backend/server.js`:
`base64urlencode(buffer) = buffer.toString("base64").replace(/\+/g,"-").replace(/\//g,"_").replace(/=/g,"")`
and `generateCodeChallenge(verifier) = base64urlencode(sha256(utf8(verifier)))`.
The SHA-256 digest and the UTF-8 encoder are Node/Expo library calls, hence
passed in as parameters; the repository's own code is the base64url step,
modelled here byte-for-byte: standard base64 (with padding) followed by the
three global replaces. -/

/-- The standard base64 alphabet, indexed 0..63. -/
def stdAlphabet : List Char :=
  "ABCDEFGHIJKLMNOPQRSTUVWXYZabcdefghijklmnopqrstuvwxyz0123456789+/".toList

/-- The base64url alphabet, indexed 0..63. -/
def urlAlphabet : List Char :=
  "ABCDEFGHIJKLMNOPQRSTUVWXYZabcdefghijklmnopqrstuvwxyz0123456789-_".toList

/-- The 6-bit groups of a byte sequence (base64 without alphabet/padding). -/
def sextets : List Nat → List Nat
  | [] => []
  | [b0] => [b0 / 4, b0 % 4 * 16]
  | [b0, b1] => [b0 / 4, b0 % 4 * 16 + b1 / 16, b1 % 16 * 4]
  | b0 :: b1 :: b2 :: rest =>
    b0 / 4 :: (b0 % 4 * 16 + b1 / 16) :: (b1 % 16 * 4 + b2 / 64) :: b2 % 64 :: sextets rest

/-- Base64 padding: `==` for a final group of one byte, `=` for two. -/
def padFor (bytes : List Nat) : List Char :=
  match bytes.length % 3 with
  | 0 => []
  | 1 => ['=', '=']
  | _ => ['=']

/-- `buffer.toString("base64")`: standard base64 with padding. -/
def base64encode (bytes : List Nat) : List Char :=
  (sextets bytes).map (fun n => stdAlphabet.getD n 'A') ++ padFor bytes

/-- `.replace(/\+/g, "-")` on a single character. -/
def replPlus (c : Char) : Char := if c = '+' then '-' else c

/-- `.replace(/\//g, "_")` on a single character. -/
def replSlash (c : Char) : Char := if c = '/' then '_' else c

/-- `base64urlencode` as written in the source: standard base64, then
replace `+`→`-`, then `/`→`_`, then delete every `=`. -/
def base64urlencode (bytes : List Nat) : List Char :=
  (((base64encode bytes).map replPlus).map replSlash).filter (fun c => c ≠ '=')

/-- `generateCodeChallenge(verifier)` of both backends (and, composed the
same way from `Crypto.digestStringAsync` + the replaces, of
`GoogleApiService.generateCodeChallenge` in `index.tsx`), parametrized by
the library SHA-256 digest and UTF-8 encoder. -/
def generateCodeChallenge (sha256 : List Nat → List Nat) (utf8 : String → List Nat)
    (verifier : String) : List Char :=
  base64urlencode (sha256 (utf8 verifier))

/-- Reference derivation in the spec's words: SHA-256 of the verifier's
UTF-8 bytes, base64url-encoded with the url-safe alphabet and no padding. -/
def referenceChallenge (sha256 : List Nat → List Nat) (utf8 : String → List Nat)
    (verifier : String) : List Char :=
  (sextets (sha256 (utf8 verifier))).map (fun n => urlAlphabet.getD n 'A')

theorem repl_stdAlphabet (n : Nat) :
    replSlash (replPlus (stdAlphabet.getD n 'A')) = urlAlphabet.getD n 'A' := by
  by_cases h : n < 64
  · exact (by decide :
      ∀ i : Fin 64, replSlash (replPlus (stdAlphabet.getD i.1 'A')) = urlAlphabet.getD i.1 'A')
      ⟨n, h⟩
  · have h1 : stdAlphabet.length ≤ n := by
      have : stdAlphabet.length = 64 := by decide
      omega
    have h2 : urlAlphabet.length ≤ n := by
      have : urlAlphabet.length = 64 := by decide
      omega
    rw [List.getD_eq_default _ _ h1, List.getD_eq_default _ _ h2]
    rfl

theorem urlAlphabet_ne_pad (n : Nat) : urlAlphabet.getD n 'A' ≠ '=' := by
  by_cases h : n < 64
  · exact (by decide : ∀ i : Fin 64, urlAlphabet.getD i.1 'A' ≠ '=') ⟨n, h⟩
  · have h2 : urlAlphabet.length ≤ n := by
      have : urlAlphabet.length = 64 := by decide
      omega
    rw [List.getD_eq_default _ _ h2]
    decide

theorem padFor_filtered (bytes : List Nat) :
    (((padFor bytes).map replPlus).map replSlash).filter (fun c => c ≠ '=') = [] := by
  unfold padFor
  rcases h : bytes.length % 3 with _ | _ | k <;> simp [replPlus, replSlash]

/-- C5: `generateCodeChallenge` is deterministic (two calls on the same
verifier give the identical string — it is a pure function of its inputs),
and for every SHA-256 digest function, UTF-8 encoder and verifier, the
source's derivation (standard base64 followed by the `+`→`-`, `/`→`_`,
strip-`=` replaces) equals the reference base64url derivation of the
digest. -/
theorem c5_challenge_deterministic_and_matches_reference
    (sha256 : List Nat → List Nat) (utf8 : String → List Nat) (v : String) :
    generateCodeChallenge sha256 utf8 v = generateCodeChallenge sha256 utf8 v
    ∧ generateCodeChallenge sha256 utf8 v = referenceChallenge sha256 utf8 v := by
  refine ⟨rfl, ?_⟩
  unfold generateCodeChallenge referenceChallenge base64urlencode base64encode
  rw [List.map_append, List.map_append, List.filter_append, padFor_filtered,
    List.append_nil, List.map_map, List.map_map]
  simp only [Function.comp_def]
  rw [List.map_congr_left (fun n _ => repl_stdAlphabet n)]
  refine List.filter_eq_self.mpr ?_
  intro a ha
  obtain ⟨n, _, rfl⟩ := List.mem_map.mp ha
  simpa using urlAlphabet_ne_pad n

/-! ## C7 — refresh updates only the target record's accessToken/expiresAt

`POST /api/oauth/refresh` of the mobile backend: requires `refresh_token`,
POSTs `grant_type=refresh_token` to the provider, and on success — when a
`user_id` was supplied and is present in `userTokens` — overwrites that
record's `access_token` and `expires_at` in place and re-`set`s it. -/

/-- A successful provider refresh response body. -/
structure RefreshData where
  access_token : String
  expires_in : Nat
deriving DecidableEq, Repr

/-- Outcome of the provider's token endpoint for a refresh POST. -/
inductive RefreshResult where
  | success (d : RefreshData)
  | failure (err : ProviderErr)
deriving DecidableEq, Repr

/-- The JSON responses of `/api/oauth/refresh`. -/
inductive RefreshResponse where
  /-- 400 `{error: "Refresh token is required"}` -/
  | missingRefreshToken
  /-- 200 `{access_token, expires_in}` -/
  | refreshed (access_token : String) (expires_in : Nat)
  /-- 500 `{error: "Token refresh failed", details}` -/
  | refreshFailed (details : String)
deriving DecidableEq, Repr

/-- `POST /api/oauth/refresh` of the mobile backend. -/
def refreshHandler (provider : RefreshResult) (now : Nat)
    (refresh_tok user_id : Option String) (userTokens : TokenMap) :
    RefreshResponse × TokenMap :=
  match refresh_tok with
  | none => (.missingRefreshToken, userTokens)
  | some _ =>
    match provider with
    | .success d =>
      let userTokens' :=
        match user_id with
        | some u =>
          match mapLookup u userTokens with
          | some rec0 =>
            mapSet u { rec0 with
                        access_token := d.access_token
                        expires_at := now + d.expires_in * 1000 } userTokens
          | none => userTokens
        | none => userTokens
      (.refreshed d.access_token d.expires_in, userTokens')
    | .failure err => (.refreshFailed (catchDetails err), userTokens)

/-- C7: a successful refresh for a known `user_id` answers 200 and replaces
exactly the stored record's `access_token` and `expires_at`; the record's
`refresh_token` and `user_id` fields are preserved, and the binding of every
other key of `userTokens` is unchanged. -/
theorem c7_refresh_frame (d : RefreshData) (now : Nat) (rt u : String)
    (userTokens : TokenMap) (rec0 : TokenRecord)
    (hl : mapLookup u userTokens = some rec0) :
    (refreshHandler (.success d) now (some rt) (some u) userTokens).1 =
      .refreshed d.access_token d.expires_in
    ∧ mapLookup u (refreshHandler (.success d) now (some rt) (some u) userTokens).2 =
        some { access_token := d.access_token
               refresh_token := rec0.refresh_token
               expires_at := now + d.expires_in * 1000
               user_id := rec0.user_id }
    ∧ ∀ k, k ≠ u →
        mapLookup k (refreshHandler (.success d) now (some rt) (some u) userTokens).2 =
          mapLookup k userTokens := by
  refine ⟨rfl, ?_, ?_⟩
  · simp [refreshHandler, hl, mapLookup_set_self]
  · intro k hk
    simp only [refreshHandler, hl]
    exact mapLookup_set_ne hk _ userTokens

/-- A stored record for user `"u1"`. -/
def recA : TokenRecord := ⟨"oldAT", some "RT0", 1000, "u1"⟩

/-- A stored record for user `"u2"`. -/
def recB : TokenRecord := ⟨"AT2", none, 5, "u2"⟩

/-- A user-token map with two users. -/
def tm1 : TokenMap := [("u1", recA), ("u2", recB)]

/-- Witness for `c7_refresh_frame`: refreshing `"u1"` in `tm1` rewrites only
that record's `access_token`/`expires_at` and leaves `"u2"` untouched. -/
theorem c7_refresh_frame_witness :
    (refreshHandler (.success ⟨"newAT", 3600⟩) 2000 (some "rt") (some "u1") tm1).1 =
      .refreshed "newAT" 3600
    ∧ mapLookup "u1" (refreshHandler (.success ⟨"newAT", 3600⟩) 2000 (some "rt") (some "u1") tm1).2 =
        some { access_token := "newAT"
               refresh_token := recA.refresh_token
               expires_at := 2000 + 3600 * 1000
               user_id := recA.user_id }
    ∧ mapLookup "u2" (refreshHandler (.success ⟨"newAT", 3600⟩) 2000 (some "rt") (some "u1") tm1).2 =
        mapLookup "u2" tm1 :=
  ⟨(c7_refresh_frame ⟨"newAT", 3600⟩ 2000 "rt" "u1" tm1 recA rfl).1,
   (c7_refresh_frame ⟨"newAT", 3600⟩ 2000 "rt" "u1" tm1 recA rfl).2.1,
   (c7_refresh_frame ⟨"newAT", 3600⟩ 2000 "rt" "u1" tm1 recA rfl).2.2 "u2" (by decide)⟩

/-! ## C9 — dual auth resolution of the mobile backend

Every authenticated mobile-backend endpoint (profile, drive files, calendar
events, drive photos, picker session, picker media, picker URL) inlines the
identical resolution block:

```
if (authHeader && authHeader.startsWith("Bearer ")) accessToken = authHeader.split(" ")[1];
else if (user_id) { const t = userTokens.get(user_id);
  if (!t || Date.now() > t.expires_at) return 401; accessToken = t.access_token; }
else return 401;
```

`split(" ")` and `startsWith` are modelled character-by-character below. -/

/-- The tail of `str.split(sep)` splitting: accumulates the current field
(in reverse) and cuts at every separator occurrence. -/
def splitOnSpacesAux (cur : List Char) : List Char → List (List Char)
  | [] => [cur.reverse]
  | c :: rest =>
    if c = ' ' then cur.reverse :: splitOnSpacesAux [] rest
    else splitOnSpacesAux (c :: cur) rest

/-- JavaScript `str.split(" ")`. -/
def jsSplitSpace (s : String) : List String :=
  (splitOnSpacesAux [] s.toList).map String.mk

/-- JavaScript `h.startsWith("Bearer ")`. -/
def hdrIsBearer (h : String) : Bool :=
  startsWithChars "Bearer ".toList h.toList

/-- The two 401 situations of the resolution block. -/
inductive AuthFailure where
  /-- 401 `{error: "Missing authorization"}` -/
  | missingAuth
  /-- 401 `{error: "Token expired or invalid"}` -/
  | tokenExpired
deriving DecidableEq, Repr

/-- The `user_id` fallback branch of the resolution block. -/
def resolveViaUserId (user_id : Option String) (userTokens : TokenMap) (now : Nat) :
    Except AuthFailure String :=
  match user_id with
  | some u =>
    match mapLookup u userTokens with
    | some t => if now > t.expires_at then .error .tokenExpired else .ok t.access_token
    | none => .error .tokenExpired
  | none => .error .missingAuth

/-- The shared auth-resolution block of all seven authenticated mobile
endpoints. -/
def resolveAccessToken (authHeader user_id : Option String) (userTokens : TokenMap)
    (now : Nat) : Except AuthFailure String :=
  match authHeader with
  | some h =>
    if hdrIsBearer h then .ok ((jsSplitSpace h).getD 1 "")
    else resolveViaUserId user_id userTokens now
  | none => resolveViaUserId user_id userTokens now

/-- C9: when the Authorization header starts with "Bearer ", every
authenticated mobile endpoint uses the header token (`split(" ")[1]`)
verbatim: the result is `ok` of that token, and is independent of the
supplied `user_id`, of the whole `userTokens` map and of the clock (so the
map is not consulted and no local expiry check happens).  The 401 on an
expired stored token occurs only on the `user_id` resolution path. -/
theorem c9_bearer_header_bypasses_token_store (h : String)
    (hb : hdrIsBearer h = true) (user_id : Option String) (userTokens : TokenMap)
    (now : Nat) :
    resolveAccessToken (some h) user_id userTokens now = .ok ((jsSplitSpace h).getD 1 "")
    ∧ (∀ user_id' userTokens' now',
        resolveAccessToken (some h) user_id' userTokens' now' =
          resolveAccessToken (some h) user_id userTokens now)
    ∧ (∀ u t, user_id = some u → mapLookup u userTokens = some t →
        t.expires_at < now →
        resolveAccessToken none user_id userTokens now = .error .tokenExpired) := by
  refine ⟨by simp [resolveAccessToken, hb], fun _ _ _ => by simp [resolveAccessToken, hb], ?_⟩
  intro u t hu hl he
  have hgt : now > t.expires_at := he
  simp [resolveAccessToken, resolveViaUserId, hu, hl, hgt]

/-- Witness for `c9_bearer_header_bypasses_token_store`: header
`"Bearer abc123"` with a stored-but-expired record for `"u1"` — the header
token is returned verbatim whatever the map and clock say, and without the
header the same request is a 401. -/
theorem c9_bearer_header_bypasses_token_store_witness :
    resolveAccessToken (some "Bearer abc123") (some "u1") tm1 999999999 =
      .ok ((jsSplitSpace "Bearer abc123").getD 1 "")
    ∧ (jsSplitSpace "Bearer abc123").getD 1 "" = "abc123"
    ∧ resolveAccessToken (some "Bearer abc123") none [] 0 =
        resolveAccessToken (some "Bearer abc123") (some "u1") tm1 999999999
    ∧ resolveAccessToken none (some "u1") tm1 999999999 = .error .tokenExpired :=
  ⟨(c9_bearer_header_bypasses_token_store "Bearer abc123" (by decide) (some "u1")
      tm1 999999999).1,
   by decide,
   (c9_bearer_header_bypasses_token_store "Bearer abc123" (by decide) (some "u1")
      tm1 999999999).2.1 none [] 0,
   (c9_bearer_header_bypasses_token_store "Bearer abc123" (by decide) (some "u1")
      tm1 999999999).2.2 "u1" recA rfl rfl (by decide)⟩

/-! ## C10 — picker-media normalization

The transform loop of `GET /api/photos/picker/media` (both backends) and of
`GoogleApiService.fetchSelectedPhotos`: for each raw `mediaItems` entry,
skip it unless `mediaFile?.baseUrl` is present, else emit one normalized
photo object. -/

/-- The `mediaFile` sub-object of a raw picker media item. -/
structure MediaFile where
  baseUrl : Option String
  filename : Option String
  mimeType : Option String
deriving DecidableEq, Repr

/-- The `mediaFileMetadata` sub-object of a raw picker media item. -/
structure MediaFileMetadata where
  width : Option Nat
  height : Option Nat
deriving DecidableEq, Repr

/-- A raw provider picker media item. -/
structure MediaItem where
  id : String
  mediaFile : Option MediaFile
  createTime : Option String
  mediaFileMetadata : Option MediaFileMetadata
deriving DecidableEq, Repr

/-- A normalized photo object (`thumbnails` holds the `url` fields of the
one-element thumbnail array). -/
structure PhotoItem where
  id : String
  name : String
  url : String
  thumbnails : List String
  mimeType : Option String
  creationTime : Option String
  width : Option Nat
  height : Option Nat
deriving DecidableEq, Repr

/-- The transform loop, exactly as written: iterate `mediaItems`, skip an
item without `mediaFile?.baseUrl`, and push the normalized photo with
`thumbnailUrl = baseUrl + "=w200-h200"` and
`name = mediaFile?.filename || "Photo " + id`. -/
def transformPickerMedia : List MediaItem → List PhotoItem
  | [] => []
  | item :: rest =>
    match item.mediaFile.bind MediaFile.baseUrl with
    | some baseUrl =>
      { id := item.id
        name := (item.mediaFile.bind MediaFile.filename).getD ("Photo " ++ item.id)
        url := baseUrl
        thumbnails := [baseUrl ++ "=w200-h200"]
        mimeType := item.mediaFile.bind MediaFile.mimeType
        creationTime := item.createTime
        width := item.mediaFileMetadata.bind MediaFileMetadata.width
        height := item.mediaFileMetadata.bind MediaFileMetadata.height } ::
        transformPickerMedia rest
    | none => transformPickerMedia rest

/-- The per-item normalization: `some` photo exactly when
`mediaFile?.baseUrl` is present. -/
def photoOfItem (item : MediaItem) : Option PhotoItem :=
  (item.mediaFile.bind MediaFile.baseUrl).map fun baseUrl =>
    { id := item.id
      name := (item.mediaFile.bind MediaFile.filename).getD ("Photo " ++ item.id)
      url := baseUrl
      thumbnails := [baseUrl ++ "=w200-h200"]
      mimeType := item.mediaFile.bind MediaFile.mimeType
      creationTime := item.createTime
      width := item.mediaFileMetadata.bind MediaFileMetadata.width
      height := item.mediaFileMetadata.bind MediaFileMetadata.height }

theorem transformPickerMedia_eq_filterMap (items : List MediaItem) :
    transformPickerMedia items = items.filterMap photoOfItem := by
  induction items with
  | nil => rfl
  | cons item rest ih =>
    cases h : item.mediaFile.bind MediaFile.baseUrl with
    | none => simp [transformPickerMedia, photoOfItem, h, ih]
    | some b => simp [transformPickerMedia, photoOfItem, h, ih]

/-- C10: the normalization emits exactly one photo per input item whose
`mediaFile.baseUrl` is present, in input order (it is the `filterMap` of the
per-item normalization, which is `some` exactly on baseUrl-bearing items
and `none` otherwise), so the output is never longer than the input; each
emitted photo's thumbnail URL is `baseUrl ++ "=w200-h200"`, its `url` is
the `baseUrl`, and its name falls back to `"Photo " ++ id` when
`mediaFile.filename` is absent. -/
theorem c10_picker_media_normalization (items : List MediaItem) (item : MediaItem)
    (f : MediaFile) (b : String) (hf : item.mediaFile = some f)
    (hb : f.baseUrl = some b) (hn : f.filename = none) :
    transformPickerMedia items = items.filterMap photoOfItem
    ∧ (transformPickerMedia items).length ≤ items.length
    ∧ (∀ it, it.mediaFile.bind MediaFile.baseUrl = none → photoOfItem it = none)
    ∧ (∀ it b', it.mediaFile.bind MediaFile.baseUrl = some b' →
        ∃ p, photoOfItem it = some p ∧ p.url = b' ∧ p.thumbnails = [b' ++ "=w200-h200"])
    ∧ photoOfItem item =
        some { id := item.id
               name := "Photo " ++ item.id
               url := b
               thumbnails := [b ++ "=w200-h200"]
               mimeType := f.mimeType
               creationTime := item.createTime
               width := item.mediaFileMetadata.bind MediaFileMetadata.width
               height := item.mediaFileMetadata.bind MediaFileMetadata.height } := by
  refine ⟨transformPickerMedia_eq_filterMap items, ?_, ?_, ?_, ?_⟩
  · rw [transformPickerMedia_eq_filterMap items]
    exact List.length_filterMap_le _ _
  · intro it h
    simp [photoOfItem, h]
  · intro it b' h
    exact ⟨{ id := it.id
             name := (it.mediaFile.bind MediaFile.filename).getD ("Photo " ++ it.id)
             url := b'
             thumbnails := [b' ++ "=w200-h200"]
             mimeType := it.mediaFile.bind MediaFile.mimeType
             creationTime := it.createTime
             width := it.mediaFileMetadata.bind MediaFileMetadata.width
             height := it.mediaFileMetadata.bind MediaFileMetadata.height },
           by simp [photoOfItem, h], rfl, rfl⟩
  · simp [photoOfItem, hf, hb, hn]

/-- A raw item with a `baseUrl` and no filename. -/
def itemWithBase : MediaItem :=
  ⟨"id1", some ⟨some "http://x/1", none, some "image/png"⟩, some "2024-01-01", none⟩

/-- A raw item without a `baseUrl`. -/
def itemNoBase : MediaItem := ⟨"id2", some ⟨none, some "f.png", none⟩, none, none⟩

/-- Witness for `c10_picker_media_normalization` on a concrete two-item
list: the baseUrl-less item is dropped, the other is normalized with the
derived thumbnail and fallback name. -/
theorem c10_picker_media_normalization_witness :
    transformPickerMedia [itemWithBase, itemNoBase] =
      ([itemWithBase, itemNoBase] : List MediaItem).filterMap photoOfItem
    ∧ (transformPickerMedia [itemWithBase, itemNoBase]).length ≤ 2
    ∧ photoOfItem itemNoBase = none
    ∧ (∃ p, photoOfItem itemWithBase = some p ∧ p.url = "http://x/1"
        ∧ p.thumbnails = ["http://x/1" ++ "=w200-h200"])
    ∧ photoOfItem itemWithBase =
        some { id := "id1"
               name := "Photo " ++ "id1"
               url := "http://x/1"
               thumbnails := ["http://x/1" ++ "=w200-h200"]
               mimeType := some "image/png"
               creationTime := some "2024-01-01"
               width := none
               height := none } := by
  have h := c10_picker_media_normalization [itemWithBase, itemNoBase] itemWithBase
    ⟨some "http://x/1", none, some "image/png"⟩ "http://x/1" rfl rfl rfl
  exact ⟨h.1, h.2.1, h.2.2.1 itemNoBase rfl, h.2.2.2.1 itemWithBase "http://x/1" rfl,
    h.2.2.2.2⟩

/-! ## C4 — bounded retry of the selection-media fetch

`GoogleApiService.fetchSelectedPhotos(sessionId, retryCount = 0)`: on a
non-2xx response whose error status is `"FAILED_PRECONDITION"` and while
`retryCount < 3`, wait `(retryCount + 1) * 2000` ms and recurse with
`retryCount + 1`; any other failure (including the fourth
`FAILED_PRECONDITION`) throws.  The per-attempt provider response is the
oracle's value at the attempt's `retryCount`. -/

/-- One provider response to the `mediaItems` fetch. -/
inductive PickerFetch where
  | ok (items : List MediaItem)
  | httpError (status : Nat) (errStatus : Option String) (errMessage : Option String)
deriving DecidableEq, Repr

/-- Trace of a `fetchSelectedPhotos` run: how many fetch attempts were
made, the waits between them, and the final result. -/
structure FetchTrace where
  attempts : Nat
  delays : List Nat
  result : Except String (List PhotoItem)
deriving Repr

/-- `fetchSelectedPhotos` with its retry recursion, instrumented with the
attempt count and the delays it sleeps. -/
def fetchSelectedPhotos (oracle : Nat → PickerFetch) (retryCount : Nat) : FetchTrace :=
  match oracle retryCount with
  | .ok items => ⟨1, [], .ok (transformPickerMedia items)⟩
  | .httpError status errStatus errMessage =>
    if h : errStatus = some "FAILED_PRECONDITION" ∧ retryCount < 3 then
      let rest := fetchSelectedPhotos oracle (retryCount + 1)
      ⟨1 + rest.attempts, (retryCount + 1) * 2000 :: rest.delays, rest.result⟩
    else
      ⟨1, [], .error ("Photo Picker API error: " ++ toString status ++ " - "
        ++ errMessage.getD "Unknown error")⟩
termination_by 3 - retryCount
decreasing_by
  omega

theorem fetchSelectedPhotos_notReady (oracle : Nat → PickerFetch) (r status : Nat)
    (msg : Option String) (ho : oracle r = .httpError status (some "FAILED_PRECONDITION") msg)
    (hr : r < 3) :
    fetchSelectedPhotos oracle r =
      ⟨1 + (fetchSelectedPhotos oracle (r + 1)).attempts,
       (r + 1) * 2000 :: (fetchSelectedPhotos oracle (r + 1)).delays,
       (fetchSelectedPhotos oracle (r + 1)).result⟩ := by
  rw [fetchSelectedPhotos, ho]
  exact dif_pos ⟨rfl, hr⟩

theorem fetchSelectedPhotos_exhausted (oracle : Nat → PickerFetch) (status : Nat)
    (msg : Option String)
    (ho : oracle 3 = .httpError status (some "FAILED_PRECONDITION") msg) :
    fetchSelectedPhotos oracle 3 =
      ⟨1, [], .error ("Photo Picker API error: " ++ toString status ++ " - "
        ++ msg.getD "Unknown error")⟩ := by
  rw [fetchSelectedPhotos, ho]
  exact dif_neg (fun hc => absurd hc.2 (by omega))

/-- C4: if every fetch reports the not-ready condition
(`FAILED_PRECONDITION`), the call starting at `retryCount = 0` makes
exactly 4 attempts (one initial + 3 retries), sleeping the increasing
delays 2000, 4000, 6000 ms between them, and terminates with the terminal
error (the SelectionTimeoutError of the spec's taxonomy); it cannot loop
further. -/
theorem c4_retry_bound (oracle : Nat → PickerFetch)
    (h : ∀ n, ∃ status msg,
      oracle n = .httpError status (some "FAILED_PRECONDITION") msg) :
    (fetchSelectedPhotos oracle 0).attempts = 4
    ∧ (fetchSelectedPhotos oracle 0).delays = [2000, 4000, 6000]
    ∧ ∃ e, (fetchSelectedPhotos oracle 0).result = .error e := by
  obtain ⟨s0, m0, h0⟩ := h 0
  obtain ⟨s1, m1, h1⟩ := h 1
  obtain ⟨s2, m2, h2⟩ := h 2
  obtain ⟨s3, m3, h3⟩ := h 3
  rw [fetchSelectedPhotos_notReady oracle 0 s0 m0 h0 (by omega),
    fetchSelectedPhotos_notReady oracle 1 s1 m1 h1 (by omega),
    fetchSelectedPhotos_notReady oracle 2 s2 m2 h2 (by omega),
    fetchSelectedPhotos_exhausted oracle s3 m3 h3]
  exact ⟨rfl, rfl, _, rfl⟩

/-- Witness for `c4_retry_bound`: the oracle that always answers 400 with
`FAILED_PRECONDITION`. -/
theorem c4_retry_bound_witness :
    (fetchSelectedPhotos (fun _ => .httpError 400 (some "FAILED_PRECONDITION") none) 0).attempts = 4
    ∧ (fetchSelectedPhotos (fun _ => .httpError 400 (some "FAILED_PRECONDITION") none) 0).delays =
        [2000, 4000, 6000]
    ∧ ∃ e, (fetchSelectedPhotos
        (fun _ => .httpError 400 (some "FAILED_PRECONDITION") none) 0).result = .error e :=
  c4_retry_bound (fun _ => .httpError 400 (some "FAILED_PRECONDITION") none)
    (fun _ => ⟨400, none, rfl⟩)

/-! ## C8 — the picker window-closed poll vs. the 30-second hard timeout

Both `openPhotoPicker` implementations register, on a single-threaded JS
event loop:

* a `setInterval(..., 1000)` that checks `pickerWindow.closed` and, when
  closed, clears the interval and schedules a media fetch 3000 ms later
  (`setTimeout(..., 3000)`);
* a `setTimeout(..., 30000)` hard timeout that clears the interval and then
  — in `index.tsx` — rejects the promise, or — in `AppSecure.js` —
  unconditionally performs its own media fetch.

The embedding below is the deterministic timer semantics: pending timers
fire in order of due time, ties broken by registration order (interval,
then hard timeout, then the delayed fetch); each callback runs atomically.
`w` is the instant the picker window gets closed (`none` = never);
a fetch settles the outcome only if nothing settled earlier
(resolve/reject on an already-settled promise is a no-op, and in
`AppSecure.js` the first `setGooglePhotos` is the definitive outcome). -/

/-- The three timer callbacks, in registration order. -/
inductive TimerTag where
  | tick
  | hard
  | fetch
deriving DecidableEq, Repr

/-- The definitive outcomes a run can settle on. -/
inductive Settle where
  /-- the window-closed path's delayed fetch delivered the photos -/
  | windowFetch (t : Nat)
  /-- `index.tsx` only: the 30 s timeout rejected with "Photo picker timeout" -/
  | timeoutReject (t : Nat)
  /-- `AppSecure.js` only: the 30 s timeout's own fetch delivered first -/
  | timeoutFetch (t : Nat)
deriving DecidableEq, Repr

/-- The event-loop state of one `openPhotoPicker` run. -/
structure PickerRun where
  /-- the `setInterval` is still registered -/
  intervalOn : Bool
  /-- due time of its next firing -/
  nextTick : Nat
  /-- the 30 s `setTimeout` is still pending -/
  hardPending : Bool
  /-- due time of the fetch scheduled by the window-closed branch -/
  fetchAt : Option Nat
  /-- first definitive outcome, once one was produced -/
  settled : Option Settle
  /-- instants at which a fetch of the selection media items was performed -/
  fetches : List Nat
deriving DecidableEq, Repr

/-- The pending timers of `s`, in registration order. -/
def dueList (s : PickerRun) : List (Nat × TimerTag) :=
  (if s.intervalOn then [(s.nextTick, TimerTag.tick)] else [])
    ++ (if s.hardPending then [(30000, TimerTag.hard)] else [])
    ++ (match s.fetchAt with | some t => [(t, TimerTag.fetch)] | none => [])

/-- The next timer to fire: smallest due time, registration order on ties. -/
def pickNext (s : PickerRun) : Option (Nat × TimerTag) :=
  (dueList s).foldl
    (fun best c =>
      match best with
      | none => some c
      | some b => if c.1 < b.1 then some c else some b)
    none

/-- `pickerWindow.closed` as observed at time `t`. -/
def closedAt (w : Option Nat) (t : Nat) : Bool :=
  match w with
  | some wc => wc ≤ t
  | none => false

/-- Fire the next timer of the `index.tsx` run: a tick either reschedules
itself or (window closed) clears the interval and schedules the fetch at
`t + 3000`; the hard timeout clears the interval and rejects; the fetch
resolves with the photos. -/
def stepIndexTsx (w : Option Nat) (s : PickerRun) : PickerRun :=
  match pickNext s with
  | none => s
  | some (t, .tick) =>
    if closedAt w t then { s with intervalOn := false, fetchAt := some (t + 3000) }
    else { s with nextTick := s.nextTick + 1000 }
  | some (t, .hard) =>
    { s with hardPending := false, intervalOn := false,
             settled := some (s.settled.getD (.timeoutReject t)) }
  | some (t, .fetch) =>
    { s with fetchAt := none, fetches := s.fetches ++ [t],
             settled := some (s.settled.getD (.windowFetch t)) }

/-- Fire the next timer of the `AppSecure.js` run: identical except that
the hard timeout's callback always performs its own media fetch. -/
def stepAppSecure (w : Option Nat) (s : PickerRun) : PickerRun :=
  match pickNext s with
  | none => s
  | some (t, .tick) =>
    if closedAt w t then { s with intervalOn := false, fetchAt := some (t + 3000) }
    else { s with nextTick := s.nextTick + 1000 }
  | some (t, .hard) =>
    { s with hardPending := false, intervalOn := false,
             fetches := s.fetches ++ [t],
             settled := some (s.settled.getD (.timeoutFetch t)) }
  | some (t, .fetch) =>
    { s with fetchAt := none, fetches := s.fetches ++ [t],
             settled := some (s.settled.getD (.windowFetch t)) }

/-- Run the event loop until no timer is pending (`fuel` bounds the number
of firings; 40 covers the at most 30 ticks + hard timeout + one fetch). -/
def runTimers (step : PickerRun → PickerRun) : Nat → PickerRun → PickerRun
  | 0, s => s
  | n + 1, s =>
    match pickNext s with
    | none => s
    | some _ => runTimers step n (step s)

/-- State right after `openPhotoPicker` registered its two timers. -/
def pickerStart : PickerRun := ⟨true, 1000, true, none, none, []⟩

/-- The whole `index.tsx` `openPhotoPicker` timer run. -/
def openPhotoPickerIndexTsx (w : Option Nat) : PickerRun :=
  runTimers (stepIndexTsx w) 40 pickerStart

/-- The whole `AppSecure.js` `openPhotoPicker` timer run. -/
def openPhotoPickerAppSecure (w : Option Nat) : PickerRun :=
  runTimers (stepAppSecure w) 40 pickerStart

/-- C8 counterexample: with the picker window closed at t = 1500 ms, the
`AppSecure.js` run settles its definitive outcome at t = 5000 ms (the
window-closed path's fetch), yet the losing 30-second timer still performs
a further fetch of the selection media items at t = 30000 ms — it is never
cancelled, so "after the first definitive outcome, the losing timer
performs no further fetch" is false. -/
theorem c8_race_counterexample :
    (openPhotoPickerAppSecure (some 1500)).settled = some (.windowFetch 5000)
    ∧ (openPhotoPickerAppSecure (some 1500)).fetches = [5000, 30000] := by
  exact ⟨rfl, rfl⟩

/-- C8 amended: whichever side fires first does cancel the polling
interval, but the hard 30-second timeout itself is never cancelled.  In
`AppSecure.js` its callback always performs its own further media fetch
(first conjunct), so after a successful window-closed outcome a duplicate
fetch occurs.  In `index.tsx` the timeout performs no fetch (second
conjunct): there a run whose window-closed fetch settles before 30 s has
exactly that one fetch; but a fetch already scheduled by the window-closed
branch is not cancelled either, so when the window closes between 27 s and
30 s the fetch still runs at tick + 3000 ms after the timeout's rejection
settled the outcome. -/
theorem c8_race_amended :
    (∀ w s t, pickNext s = some (t, TimerTag.hard) →
      (stepAppSecure w s).fetches = s.fetches ++ [t]
      ∧ (stepAppSecure w s).hardPending = false
      ∧ (stepAppSecure w s).intervalOn = false)
    ∧ (∀ w s t, pickNext s = some (t, TimerTag.hard) →
      (stepIndexTsx w s).fetches = s.fetches)
    ∧ (openPhotoPickerIndexTsx (some 1500)).fetches = [5000]
    ∧ (openPhotoPickerIndexTsx (some 1500)).settled = some (.windowFetch 5000)
    ∧ (openPhotoPickerIndexTsx (some 27500)).fetches = [31000]
    ∧ (openPhotoPickerIndexTsx (some 27500)).settled = some (.timeoutReject 30000) := by
  refine ⟨?_, ?_, rfl, rfl, rfl, rfl⟩
  · intro w s t h
    simp [stepAppSecure, h]
  · intro w s t h
    simp only [stepIndexTsx, h]

/-- A state in which only the hard timeout is pending and the window-closed
path already fetched and settled at t = 5000 ms. -/
def hardOnlyState : PickerRun := ⟨false, 0, true, none, some (.windowFetch 5000), [5000]⟩

/-- Witness for `c8_race_amended` at `hardOnlyState`. -/
theorem c8_race_amended_witness :
    (stepAppSecure none hardOnlyState).fetches = [5000, 30000]
    ∧ (stepIndexTsx none hardOnlyState).fetches = [5000] :=
  ⟨(c8_race_amended.1 none hardOnlyState 30000 rfl).1,
   c8_race_amended.2.1 none hardOnlyState 30000 rfl⟩
